import Mathlib

/-!
# Verification of the LinkedIt bot job-aggregation core

Shallow embedding of the job-search core of the repository:
* `src/bot.py` — query normalization (the inline cache-key expression),
  the concurrent multi-country search `search_jobs_logic`, the per-country
  worker `_search_single_country`, pagination (`send_page` and the `page_`
  branch of `handle_callback`), session storage in `perform_search`, and the
  `ImportError` fallback `TTLCache` class;
* `src/database.py` — the send-deduplication ledger (`is_job_sent`,
  `mark_job_sent` over the `sent_jobs` table with its
  `UNIQUE(user_id, job_url)` constraint).

Conventions of the embedding:
* blocking/asynchronous behaviour is made explicit: every thread-pool worker
  is described by a `WorkerBehavior` giving its scrape outcome and the
  wall-clock instant (if any) at which its future completes;
  `asyncio.wait_for(asyncio.gather(...), timeout=SEARCH_TIMEOUT)` completes
  normally iff every dispatched task completes by the deadline, and raises
  `asyncio.TimeoutError` otherwise (in which case the source sets
  `results_lists = []`);
* Python dicts holding the job cache and `context.user_data` are association
  lists with dict assignment semantics (overwrite in place, append if new);
* strings are compared exactly; `str.lower`/`str.strip` are modelled
  character-wise over the underlying character list (ASCII-faithful).
-/

namespace LinkedIt

/-- `str.lower` modelled over the character list (ASCII-faithful). -/
def strLower (s : String) : String :=
  String.mk (s.data.map Char.toLower)

/-- `str.strip` modelled over the character list: drop leading and trailing
whitespace. -/
def strStrip (s : String) : String :=
  String.mk (((s.data.dropWhile Char.isWhitespace).reverse.dropWhile
    Char.isWhitespace).reverse)

/-- bot.py:252 — `cache_key = f"{search_term.lower().strip()}:{country_code}"`.
Note the term is lowercased and stripped, while the country code is
interpolated verbatim. -/
def cache_key (search_term country_code : String) : String :=
  strStrip (strLower search_term) ++ ":" ++ country_code

/-- bot.py:86 — `RESULTS_PER_PAGE = 5`. -/
def RESULTS_PER_PAGE : Nat := 5

/-- bot.py:87 — `MAX_RESULTS = 15`. -/
def MAX_RESULTS : Nat := 15

/-- bot.py:89 — `SEARCH_TIMEOUT = 60` (seconds). -/
def SEARCH_TIMEOUT : Nat := 60

/-- bot.py:80 — `job_cache = TTLCache(maxsize=200, ttl=1800)`: the configured
maximum entry count. -/
def CACHE_MAXSIZE : Nat := 200

/-- One scraped job record (a pandas row turned into a dict). Only the fields
the verified claims inspect are carried; `country_name` models the
`"_country_name"` key stamped onto the dict by `_search_single_country`. -/
structure JobRec where
  title : String
  company : String
  job_url : String
  country_name : Option String := none
deriving DecidableEq

/-- bot.py:92-97 — the `COUNTRIES` dict, in insertion order, reduced to the
pairs (code, display name) that the search logic reads (`"name"`; the
`location`/`indeed_country` fields are only forwarded to the scraper). -/
def COUNTRIES : List (String × String) :=
  [("qa", "قطر 🇶🇦"), ("ae", "الإمارات 🇦🇪"),
   ("sa", "السعودية 🇸🇦"), ("bh", "البحرين 🇧🇭")]

/-- `COUNTRIES.keys()` in iteration order — the region dispatch order used at
bot.py:264-267. -/
def allRegionCodes : List String := COUNTRIES.map Prod.fst

/-- Outcome of one `scrape_jobs` call inside `_search_single_country`:
the call raised, returned `None`, or returned a dataframe with these rows. -/
inductive ScrapeResult
  | raises
  | noFrame
  | frame (rows : List JobRec)
deriving DecidableEq

/-- Behaviour of one thread-pool worker task: what its `scrape_jobs` call
does, and the wall-clock instant (measured from dispatch) at which the task's
future completes (`none` = it never completes). -/
structure WorkerBehavior where
  scrape : ScrapeResult
  finish : Option Nat

/-- The task's future has resolved by instant `t`. -/
def finishedBy (wb : WorkerBehavior) (t : Nat) : Bool :=
  match wb.finish with
  | some ft => ft ≤ t
  | none => false

/-- bot.py:226-247 — `_search_single_country(search_term, cc)`.
The whole body sits in a `try: ... except Exception: return []`, so a raised
scrape, a `None` frame, an empty frame, and an unknown country code
(`COUNTRIES[cc]` raises `KeyError` inside the `try`) all yield `[]`; a
non-empty frame is returned with every row stamped with
`_country_name = COUNTRIES[cc]["name"]`. -/
def _search_single_country (env : String → String → WorkerBehavior)
    (search_term cc : String) : List JobRec :=
  match COUNTRIES.lookup cc with
  | none => []
  | some cname =>
    match (env search_term cc).scrape with
    | .raises => []
    | .noFrame => []
    | .frame rows =>
      if rows.isEmpty then []
      else rows.map (fun j => { j with country_name := some cname })

/-- One element of the list produced by
`asyncio.gather(*tasks, return_exceptions=True)`: a worker's returned list, or
an exception object collected in its place. (`_search_single_country` catches
its own exceptions, so the search only ever produces `res` items; the `exc`
constructor keeps the defensive `elif isinstance(result, Exception)` branch of
bot.py:281-282 representable.) -/
inductive GatherItem
  | res (jobs : List JobRec)
  | exc
deriving DecidableEq

/-- bot.py:277-282 — the merge loop: `extend` every list item, skip (and log)
every exception item, preserving order. -/
def mergeResults : List GatherItem → List JobRec
  | [] => []
  | GatherItem.res jobs :: rest => jobs ++ mergeResults rest
  | GatherItem.exc :: rest => mergeResults rest

/-- The job cache contents as a keyed store; also reused for the
`context.user_data` dict that backs the session result store. -/
abbrev Cache := List (String × List JobRec)

/-- Dict lookup: `cache[key]` / `key in cache` (its `some`/`none` shape). -/
def lookupCache : Cache → String → Option (List JobRec)
  | [], _ => none
  | e :: rest, k => if e.1 = k then some e.2 else lookupCache rest k

/-- Dict assignment `cache[key] = value`: overwrite an existing entry in
place, otherwise append. -/
def putCache : Cache → String → List JobRec → Cache
  | [], k, v => [(k, v)]
  | e :: rest, k, v => if e.1 = k then (k, v) :: rest else e :: putCache rest k v

/-- The observable outcome of one `search_jobs_logic` call: the returned job
list, the job cache afterwards, and how many `_search_single_country` workers
were dispatched (the call counter of the cache-correctness property). -/
structure SearchOutcome where
  results : List JobRec
  cache : Cache
  workerCalls : Nat
deriving DecidableEq

/-- bot.py:250-296 — `search_jobs_logic(search_term, country_code)`.

* cache hit: return the cached list, invoking no worker;
* miss, `country_code == "all"`: dispatch one worker per country
  (`COUNTRIES.keys()` order) and await
  `wait_for(gather(*tasks, return_exceptions=True), timeout=SEARCH_TIMEOUT)`;
  if every task completes by the deadline the gathered lists are merged,
  otherwise `asyncio.TimeoutError` is caught and `results_lists = []`,
  discarding every task's result (completed or not);
* miss, single country: one worker under the same `wait_for` deadline,
  `all_jobs = []` on timeout;
* in every miss branch the merged list is stored in the cache unchanged
  (`job_cache[cache_key] = all_jobs`, bot.py:295) and returned. -/
def search_jobs_logic (env : String → String → WorkerBehavior) (cache : Cache)
    (search_term country_code : String) : SearchOutcome :=
  match lookupCache cache (cache_key search_term country_code) with
  | some cached => ⟨cached, cache, 0⟩
  | none =>
    if country_code = "all" then
      let results_lists : List GatherItem :=
        if allRegionCodes.all (fun cc => finishedBy (env search_term cc) SEARCH_TIMEOUT)
        then allRegionCodes.map
          (fun cc => GatherItem.res (_search_single_country env search_term cc))
        else []
      let all_jobs := mergeResults results_lists
      ⟨all_jobs, putCache cache (cache_key search_term country_code) all_jobs,
        allRegionCodes.length⟩
    else
      let all_jobs :=
        if finishedBy (env search_term country_code) SEARCH_TIMEOUT
        then _search_single_country env search_term country_code
        else []
      ⟨all_jobs, putCache cache (cache_key search_term country_code) all_jobs, 1⟩

/-- Spec-side definition (from the spec's words, for comparison with
`search_jobs_logic`): the merge, in region-dispatch order, of the results of
exactly those workers that completed by the deadline — "the returned ResultSet
is the merge of all workers that completed before the deadline; a worker that
has not completed contributes nothing". -/
def specMergeCompleted (env : String → String → WorkerBehavior)
    (search_term : String) (deadline : Nat) : List JobRec :=
  mergeResults ((allRegionCodes.filter
      (fun cc => finishedBy (env search_term cc) deadline)).map
    (fun cc => GatherItem.res (_search_single_country env search_term cc)))

/-- bot.py:497-507 — the part of `perform_search` that populates the session
result store: if the search returned nothing, no session is created (it sends
the "no jobs found" message and returns); otherwise
`context.user_data[f"results_{search_id}"] = results[:MAX_RESULTS]`. -/
def perform_search_store (results : List JobRec) : Option (List JobRec) :=
  if results.isEmpty then none else some (results.take MAX_RESULTS)

/-- What one `send_page` call shows: the page's job records, whether a
"previous" navigation button is offered (`page > 0`), whether a "next" button
is offered (`end_idx < len(results)`), and the advertised page count. -/
structure PageView where
  items : List JobRec
  hasPrev : Bool
  hasNext : Bool
  totalPages : Nat
deriving DecidableEq

/-- bot.py:440-477 — the pure slicing/navigation content of `send_page`:
`start_idx = page * RESULTS_PER_PAGE`,
`end_idx = min(start_idx + RESULTS_PER_PAGE, len(results))`,
`total_pages = (len(results) + RESULTS_PER_PAGE - 1) // RESULTS_PER_PAGE`,
`page_results = results[start_idx:end_idx]`. -/
def send_page (results : List JobRec) (page : Nat) : PageView :=
  let start_idx := page * RESULTS_PER_PAGE
  let end_idx := min (start_idx + RESULTS_PER_PAGE) results.length
  let total_pages := (results.length + RESULTS_PER_PAGE - 1) / RESULTS_PER_PAGE
  { items := (results.drop start_idx).take (end_idx - start_idx)
    hasPrev := decide (0 < page)
    hasNext := decide (end_idx < results.length)
    totalPages := total_pages }

/-- bot.py:421-427 — the `page_` branch of `handle_callback`:
`results = context.user_data.get(f"results_{search_id}", [])`, and only
`if results:` is a page sent. `none` means the handler falls through and
sends nothing at all — there is no error reply of any kind for an unknown
(or empty) session. -/
def handle_page_callback (userData : Cache) (search_id : String) (page : Nat) :
    Option PageView :=
  let results := (lookupCache userData ("results_" ++ search_id)).getD []
  if results.isEmpty then none else some (send_page results page)

/-- bot.py:42-48 — the `ImportError` fallback `class TTLCache(dict)`: it
stores `maxsize` (and drops `ttl`) in `__init__` and overrides nothing else,
so reads and writes are plain `dict` behaviour. -/
structure FallbackTTLCache where
  entries : Cache
  maxsize : Nat
deriving DecidableEq

/-- `cache[key] = value` on the fallback class: inherited `dict.__setitem__`,
which never consults `maxsize` and never evicts. -/
def FallbackTTLCache.setItem (c : FallbackTTLCache) (k : String)
    (v : List JobRec) : FallbackTTLCache :=
  { c with entries := putCache c.entries k v }

/-- The `sent_jobs` table of database.py:84-91 as its list of
(`user_id`, `job_url`) rows, in insertion order. The table carries
`UNIQUE(user_id, job_url)`. -/
abbrev Ledger := List (Int × String)

/-- database.py:328-335 — `is_job_sent`: `SELECT id FROM sent_jobs WHERE
user_id = ? AND job_url = ?` has a row. -/
def is_job_sent : Ledger → Int → String → Bool
  | [], _, _ => false
  | p :: rest, u, url =>
    (decide (p.1 = u) && decide (p.2 = url)) || is_job_sent rest u url

/-- database.py:338-347 — `mark_job_sent`: `INSERT OR IGNORE INTO sent_jobs
(user_id, job_url) VALUES (?, ?)` against the `UNIQUE(user_id, job_url)`
constraint: insert the row unless an equal pair already exists, in which case
the statement is ignored (no error). -/
def mark_job_sent (L : Ledger) (u : Int) (url : String) : Ledger :=
  if is_job_sent L u url then L else L ++ [(u, url)]

/-- Number of stored rows for one (user, url) pair. -/
def sentCount (L : Ledger) (u : Int) (url : String) : Nat :=
  (L.filter (fun p => decide (p.1 = u) && decide (p.2 = url))).length

/-! ### Concrete scenarios used by witnesses and counterexamples -/

/-- A bare scraped row (before provenance stamping). -/
def mkJob (t : String) : JobRec :=
  { title := t, company := "", job_url := "" }

/-- An environment whose workers never complete and whose scrapes raise;
used where the worker behaviour is irrelevant (cache hits). -/
def idleEnv : String → String → WorkerBehavior :=
  fun _ _ => ⟨.raises, none⟩

/-- Deadline scenario: the qa, sa and bh workers complete at instant 1, each
with one posting; the ae worker never completes. -/
def envSlowAe : String → String → WorkerBehavior :=
  fun _ cc =>
    if cc = "ae" then ⟨.frame [mkJob "job-ae"], none⟩
    else ⟨.frame [mkJob ("job-" ++ cc)], some 1⟩

/-- Partial-failure scenario: the qa scrape raises (its worker still finishes,
at instant 1); ae, sa, bh return one non-empty frame each, on time. -/
def envQaRaises : String → String → WorkerBehavior :=
  fun _ cc =>
    if cc = "qa" then ⟨.raises, some 1⟩
    else ⟨.frame [mkJob ("job-" ++ cc)], some 2⟩

/-- Four scraped rows tagged by country code. -/
def fourJobs (tag : String) : List JobRec :=
  [mkJob (tag ++ "1"), mkJob (tag ++ "2"), mkJob (tag ++ "3"), mkJob (tag ++ "4")]

/-- Overflow scenario: every worker returns four postings at instant 1, so the
all-regions merge has 16 postings. -/
def envFourEach : String → String → WorkerBehavior :=
  fun _ cc => ⟨.frame (fourJobs cc), some 1⟩

/-- A 12-item result set, for the pagination-arithmetic instance. -/
def sample12 : List JobRec :=
  (List.range 12).map (fun i => mkJob (Nat.repr i))

/-- A fallback cache filled to its configured maximum: 200 entries (keys
"0".."199", created in that order) with maxsize 200. -/
def cache200 : FallbackTTLCache :=
  { entries := (List.range CACHE_MAXSIZE).map (fun i => (Nat.repr i, [])),
    maxsize := CACHE_MAXSIZE }

end LinkedIt

namespace LinkedIt

/-! ### Shared lemmas about the embedded operations -/

theorem lookupCache_putCache_self (c : Cache) (k : String) (v : List JobRec) :
    lookupCache (putCache c k v) k = some v := by
  induction c with
  | nil => simp [putCache, lookupCache]
  | cons e rest ih =>
    by_cases h : e.1 = k
    · simp [putCache, lookupCache, h]
    · simp [putCache, lookupCache, h, ih]

theorem search_hit_eq (env : String → String → WorkerBehavior) (cache : Cache)
    (term cc : String) (v : List JobRec)
    (h : lookupCache cache (cache_key term cc) = some v) :
    search_jobs_logic env cache term cc = ⟨v, cache, 0⟩ := by
  unfold search_jobs_logic
  rw [h]

theorem search_miss_cache_eq (env : String → String → WorkerBehavior)
    (cache : Cache) (term cc : String)
    (h : lookupCache cache (cache_key term cc) = none) :
    (search_jobs_logic env cache term cc).cache
      = putCache cache (cache_key term cc) (search_jobs_logic env cache term cc).results := by
  unfold search_jobs_logic
  rw [h]
  by_cases hcc : cc = "all" <;> simp [hcc]

end LinkedIt

namespace LinkedIt

/-! ### C1 -/

/-- C1 counterexample: under the all-regions selector with the deadline
elapsing (the ae worker never completes while qa, sa, bh complete at instant 1
with one posting each), the code returns the empty list, while the merge of
the workers that completed before the deadline is non-empty — so the claim
"the returned ResultSet is the merge of all workers that completed before the
deadline" is false at this input: the slow region removed the other regions'
already-available results. -/
theorem search_all_timeout_counterexample :
    (search_jobs_logic envSlowAe [] "engineer" "all").results
      ≠ specMergeCompleted envSlowAe "engineer" SEARCH_TIMEOUT ∧
    (search_jobs_logic envSlowAe [] "engineer" "all").results = [] ∧
    specMergeCompleted envSlowAe "engineer" SEARCH_TIMEOUT ≠ [] := by decide

/-- C1 (amended): on a cache miss under the all-regions selector, if the
overall deadline elapses (some worker has not completed by `SEARCH_TIMEOUT`),
`search_jobs_logic` catches the `asyncio.TimeoutError` with
`results_lists = []` and returns the empty ResultSet — the already-available
results of completed workers are discarded too, and the empty list is what
gets cached. -/
theorem search_all_timeout_empty (env : String → String → WorkerBehavior)
    (cache : Cache) (term : String)
    (hmiss : lookupCache cache (cache_key term "all") = none)
    (hlate : allRegionCodes.all
        (fun cc => finishedBy (env term cc) SEARCH_TIMEOUT) = false) :
    (search_jobs_logic env cache term "all").results = [] ∧
    lookupCache (search_jobs_logic env cache term "all").cache
        (cache_key term "all") = some [] := by
  have key : search_jobs_logic env cache term "all" =
      ⟨[], putCache cache (cache_key term "all") [], allRegionCodes.length⟩ := by
    unfold search_jobs_logic
    rw [hmiss]
    simp [hlate, mergeResults]
  rw [key]
  exact ⟨rfl, lookupCache_putCache_self _ _ _⟩

/-- C1 witness for the amended theorem, at the counterexample scenario. -/
theorem search_all_timeout_empty_witness :
    (lookupCache [] (cache_key "engineer" "all") = none ∧
     allRegionCodes.all
        (fun cc => finishedBy (envSlowAe "engineer" cc) SEARCH_TIMEOUT) = false) ∧
    ((search_jobs_logic envSlowAe [] "engineer" "all").results = [] ∧
     lookupCache (search_jobs_logic envSlowAe [] "engineer" "all").cache
        (cache_key "engineer" "all") = some []) :=
  ⟨⟨by decide, by decide⟩,
   search_all_timeout_empty envSlowAe [] "engineer" (by decide) (by decide)⟩

/-! ### C2 -/

/-- C2: whenever the normalized key is present (and, in the model, unexpired —
`lookupCache` is the unexpired view of the cache) the search returns the
cached ResultSet immediately, leaves the cache unchanged, and dispatches zero
Fetch Workers. -/
theorem cache_hit_no_worker (env : String → String → WorkerBehavior)
    (cache : Cache) (term cc : String) (v : List JobRec)
    (h : lookupCache cache (cache_key term cc) = some v) :
    search_jobs_logic env cache term cc = ⟨v, cache, 0⟩ :=
  search_hit_eq env cache term cc v h

/-- C2 witness: a concrete cache holding the normalized key
"accountant:qa"; searching " Accountant " in "qa" hits it with zero worker
calls. -/
theorem cache_hit_no_worker_witness :
    lookupCache [("accountant:qa", [mkJob "cached"])] (cache_key " Accountant " "qa")
      = some [mkJob "cached"] ∧
    search_jobs_logic idleEnv [("accountant:qa", [mkJob "cached"])] " Accountant " "qa"
      = ⟨[mkJob "cached"], [("accountant:qa", [mkJob "cached"])], 0⟩ :=
  ⟨by decide,
   cache_hit_no_worker idleEnv [("accountant:qa", [mkJob "cached"])]
     " Accountant " "qa" [mkJob "cached"] (by decide)⟩

/-! ### C3 -/

/-- C3: on an all-regions cache miss where every worker task completes by the
deadline, the search never raises (it is a total function): the result is the
in-order merge of every worker's contribution, and any worker whose scrape
raised contributes the empty list (the failure is caught inside
`_search_single_country`), so the merge is exactly the successful workers'
results. -/
theorem partial_failure_merge (env : String → String → WorkerBehavior)
    (cache : Cache) (term : String)
    (hmiss : lookupCache cache (cache_key term "all") = none)
    (hontime : allRegionCodes.all
        (fun cc => finishedBy (env term cc) SEARCH_TIMEOUT) = true) :
    (search_jobs_logic env cache term "all").results
      = mergeResults (allRegionCodes.map
          (fun cc => GatherItem.res (_search_single_country env term cc))) ∧
    (∀ cc, (env term cc).scrape = ScrapeResult.raises →
        _search_single_country env term cc = []) := by
  constructor
  · unfold search_jobs_logic
    rw [hmiss]
    simp [hontime]
  · intro cc h
    cases hc : COUNTRIES.lookup cc with
    | none => simp [_search_single_country, hc]
    | some cname => simp [_search_single_country, hc, h]

/-- C3 witness: qa's scrape raises while ae, sa, bh succeed with one posting
each, all on time; the merge is the three successes' postings. -/
theorem partial_failure_merge_witness :
    (lookupCache [] (cache_key "sales" "all") = none ∧
     allRegionCodes.all
        (fun cc => finishedBy (envQaRaises "sales" cc) SEARCH_TIMEOUT) = true) ∧
    ((search_jobs_logic envQaRaises [] "sales" "all").results
      = mergeResults (allRegionCodes.map
          (fun cc => GatherItem.res (_search_single_country envQaRaises "sales" cc))) ∧
     (∀ cc, (envQaRaises "sales" cc).scrape = ScrapeResult.raises →
        _search_single_country envQaRaises "sales" cc = [])) :=
  ⟨⟨by decide, by decide⟩,
   partial_failure_merge envQaRaises [] "sales" (by decide) (by decide)⟩

end LinkedIt

namespace LinkedIt

/-! ### C4 -/

/-- C4 counterexample: with each of the four regions returning four postings
on time, the list stored in the cache by `search_jobs_logic` has 16 postings —
more than `MAX_RESULTS = 15` — so the claim that the merge is truncated to the
configured maximum before being stored in the cache (and that every cache
entry holds at most 15 postings) is false at this input. -/
theorem cache_stores_untruncated_counterexample :
    ((lookupCache (search_jobs_logic envFourEach [] "sales" "all").cache
        (cache_key "sales" "all")).getD []).length = 16 ∧
    ¬ (((lookupCache (search_jobs_logic envFourEach [] "sales" "all").cache
        (cache_key "sales" "all")).getD []).length ≤ MAX_RESULTS) := by decide

/-- C4 (amended): on an all-regions cache miss the merged ResultSet is stored
in the cache exactly as returned, without truncation
(`job_cache[cache_key] = all_jobs`); truncation to `MAX_RESULTS` happens only
when `perform_search` stores the session result list
(`results[:MAX_RESULTS]`), so it is the session store — not the cache — whose
entries hold at most 15 postings. -/
theorem cache_untruncated_session_capped (env : String → String → WorkerBehavior)
    (cache : Cache) (term : String)
    (hmiss : lookupCache cache (cache_key term "all") = none) :
    lookupCache (search_jobs_logic env cache term "all").cache (cache_key term "all")
      = some (search_jobs_logic env cache term "all").results ∧
    (∀ results s, perform_search_store results = some s →
      s = results.take MAX_RESULTS ∧ s.length ≤ MAX_RESULTS) := by
  constructor
  · rw [search_miss_cache_eq env cache term "all" hmiss]
    exact lookupCache_putCache_self _ _ _
  · intro results s h
    cases he : results.isEmpty <;> simp [perform_search_store, he] at h
    subst h
    refine ⟨rfl, ?_⟩
    simp [List.length_take]

/-- C4 witness at the 16-posting scenario. -/
theorem cache_untruncated_session_capped_witness :
    lookupCache [] (cache_key "sales" "all") = none ∧
    (lookupCache (search_jobs_logic envFourEach [] "sales" "all").cache
        (cache_key "sales" "all")
      = some (search_jobs_logic envFourEach [] "sales" "all").results ∧
     (∀ results s, perform_search_store results = some s →
       s = results.take MAX_RESULTS ∧ s.length ≤ MAX_RESULTS)) :=
  ⟨by decide, cache_untruncated_session_capped envFourEach [] "sales" (by decide)⟩

/-! ### C5 -/

/-- C5 counterexample: a page request whose session id is unknown (here on an
empty `user_data` store) makes the `page_` branch of `handle_callback` fall
through its `if results:` guard and send nothing at all (`none`): there is no
InvalidSession condition reported to the caller, only the silent absence of
output the claim rules out. -/
theorem unknown_session_silent_counterexample :
    handle_page_callback [] "99999999" 0 = none ∧
    handle_page_callback [("results_1", [])] "1" 0 = none := by decide

/-- C5 (amended): on a valid (stored, non-empty) session, a page index at or
past the last page yields an empty item list with `hasNext = false` and no
failure; but a page request referencing an unknown session id is silently
dropped — the handler sends no reply of any kind (`none`), rather than a
distinct InvalidSession condition. -/
theorem page_oob_and_unknown_session (userData : Cache) (sid : String)
    (results : List JobRec) (page : Nat)
    (hfound : lookupCache userData ("results_" ++ sid) = some results)
    (hne : results ≠ [])
    (hoob : results.length ≤ page * RESULTS_PER_PAGE) :
    handle_page_callback userData sid page
      = some { items := [], hasPrev := decide (0 < page), hasNext := false,
               totalPages := (results.length + RESULTS_PER_PAGE - 1) / RESULTS_PER_PAGE } ∧
    (∀ sid' page', lookupCache userData ("results_" ++ sid') = none →
        handle_page_callback userData sid' page' = none) := by
  constructor
  · have hEmpty : results.isEmpty = false := by
      cases results with
      | nil => exact absurd rfl hne
      | cons a l => rfl
    have hdrop : results.drop (page * RESULTS_PER_PAGE) = [] :=
      List.drop_eq_nil_of_le hoob
    have hmin : min (page * RESULTS_PER_PAGE + RESULTS_PER_PAGE) results.length
        = results.length := by omega
    simp [handle_page_callback, hfound, hEmpty, send_page, hdrop, hmin]
  · intro sid' page' h
    simp [handle_page_callback, h]

/-- C5 witness: a one-posting session "abc"; page 1 is past the last page. -/
theorem page_oob_and_unknown_session_witness :
    (lookupCache [("results_abc", [mkJob "x"])] ("results_" ++ "abc")
        = some [mkJob "x"] ∧
     ([mkJob "x"] : List JobRec) ≠ [] ∧
     ([mkJob "x"] : List JobRec).length ≤ 1 * RESULTS_PER_PAGE) ∧
    (handle_page_callback [("results_abc", [mkJob "x"])] "abc" 1
      = some { items := [], hasPrev := decide (0 < 1), hasNext := false,
               totalPages := (([mkJob "x"] : List JobRec).length
                  + RESULTS_PER_PAGE - 1) / RESULTS_PER_PAGE } ∧
     (∀ sid' page',
        lookupCache [("results_abc", [mkJob "x"])] ("results_" ++ sid') = none →
        handle_page_callback [("results_abc", [mkJob "x"])] sid' page' = none)) :=
  ⟨⟨by decide, by decide, by decide⟩,
   page_oob_and_unknown_session [("results_abc", [mkJob "x"])] "abc"
     [mkJob "x"] 1 (by decide) (by decide) (by decide)⟩

/-! ### C6 -/

/-- C6: `send_page` is the claimed pure slicing operation: the page's items
are the slice `[5p, min(5p+5, n))` (equivalently the next 5 items after
dropping `5p`), `hasPrev` iff `p > 0`, `hasNext` iff `(p+1)*5 < n`, and
`totalPages = ceil(n/5)`; in particular, for the 12-item result set, there are
3 pages, page 0 has no previous and a next, and page 2 has 2 items and no
next. -/
theorem pagination_arithmetic (results : List JobRec) (page : Nat) :
    ((send_page results page).items
        = (results.drop (page * RESULTS_PER_PAGE)).take RESULTS_PER_PAGE ∧
     (send_page results page).hasPrev = decide (0 < page) ∧
     (send_page results page).hasNext
        = decide ((page + 1) * RESULTS_PER_PAGE < results.length) ∧
     (send_page results page).totalPages
        = results.length / RESULTS_PER_PAGE
          + (if results.length % RESULTS_PER_PAGE = 0 then 0 else 1)) ∧
    ((send_page sample12 0).hasPrev = false ∧
     (send_page sample12 0).hasNext = true ∧
     (send_page sample12 0).totalPages = 3 ∧
     (send_page sample12 2).items.length = 2 ∧
     (send_page sample12 2).hasNext = false) := by
  refine ⟨⟨?_, rfl, ?_, ?_⟩, by decide, by decide, by decide, by decide, by decide⟩
  · simp only [send_page, RESULTS_PER_PAGE, List.take_eq_take, List.length_drop]
    omega
  · simp only [send_page, RESULTS_PER_PAGE, decide_eq_decide]
    omega
  · simp only [send_page, RESULTS_PER_PAGE]
    by_cases h : results.length % 5 = 0 <;> simp [h] <;> omega

end LinkedIt

namespace LinkedIt

/-! ### C7 -/

/-- C7 counterexample: the region selector is interpolated into the cache key
verbatim (`f"...:{country_code}"`), so two region selectors differing only in
casing produce different keys — the claim that region-tag casing does not
affect the key is false at this input. -/
theorem region_case_key_counterexample :
    cache_key "accountant" "qa" ≠ cache_key "accountant" "QA" ∧
    cache_key "accountant" "qa" = "accountant:qa" ∧
    cache_key "accountant" "QA" = "accountant:QA" := by decide

/-- C7 (amended): key construction is a pure, deterministic function of the
raw term and region selector; two raw terms differing only in letter case or
surrounding whitespace (i.e. with the same lowercased-and-stripped form)
produce identical keys for the same region selector, and in particular
`" Accountant "`/`"qa"` and `"accountant"`/`"qa"` share a key — but the
region selector itself is used verbatim, so region-tag casing is not
normalized. -/
theorem cache_key_normalization (t1 t2 r : String)
    (h : strStrip (strLower t1) = strStrip (strLower t2)) :
    cache_key t1 r = cache_key t2 r := by
  unfold cache_key
  rw [h]

/-- C7 witness: the spec's own example pair. -/
theorem cache_key_normalization_witness :
    strStrip (strLower " Accountant ") = strStrip (strLower "accountant") ∧
    cache_key " Accountant " "qa" = cache_key "accountant" "qa" :=
  ⟨by decide, cache_key_normalization " Accountant " "accountant" "qa" (by decide)⟩

/-! ### C8 -/

set_option maxRecDepth 4000 in
/-- C8: evaluation of the in-repo `ImportError` fallback `TTLCache` at the
failing input — a cache already holding `CACHE_MAXSIZE = 200` entries (keys
"0".."199", created in that order, so "0" is the earliest-created). Inserting
one further entry under a new key evicts nothing: the cache grows to 201
entries and the earliest-created entry "0" is still present, contradicting
the claimed oldest-first eviction at capacity (which only the external
`cachetools.TTLCache`, not in this repository, provides). -/
theorem fallback_cache_never_evicts :
    cache200.entries.length = cache200.maxsize ∧
    (cache200.setItem "newkey" []).entries.length = CACHE_MAXSIZE + 1 ∧
    lookupCache (cache200.setItem "newkey" []).entries "0" = some [] ∧
    lookupCache (cache200.setItem "newkey" []).entries "newkey" = some [] := by
  decide

/-! ### C9 -/

theorem is_job_sent_iff_mem (L : Ledger) (u : Int) (url : String) :
    is_job_sent L u url = true ↔ (u, url) ∈ L := by
  induction L with
  | nil => simp [is_job_sent]
  | cons p rest ih =>
    simp only [is_job_sent, Bool.or_eq_true, Bool.and_eq_true, decide_eq_true_eq,
      List.mem_cons, ih]
    constructor
    · rintro (⟨h1, h2⟩ | h3)
      · left
        cases p
        simp_all
      · right
        exact h3
    · rintro (h | h3)
      · left
        cases p
        cases h
        simp_all
      · right
        exact h3

theorem is_job_sent_append (A B : Ledger) (u : Int) (url : String) :
    is_job_sent (A ++ B) u url = (is_job_sent A u url || is_job_sent B u url) := by
  induction A with
  | nil => simp [is_job_sent]
  | cons p rest ih => simp [is_job_sent, ih, Bool.or_assoc]

theorem sentCount_append (A B : Ledger) (u : Int) (url : String) :
    sentCount (A ++ B) u url = sentCount A u url + sentCount B u url := by
  simp [sentCount, List.filter_append]

theorem sentCount_eq_zero_iff (L : Ledger) (u : Int) (url : String) :
    sentCount L u url = 0 ↔ is_job_sent L u url = false := by
  induction L with
  | nil => simp [sentCount, is_job_sent]
  | cons p rest ih =>
    by_cases h : (decide (p.1 = u) && decide (p.2 = url)) = true
    · simp [sentCount, is_job_sent, List.filter_cons, h]
    · simp only [Bool.not_eq_true] at h
      simp [sentCount, is_job_sent, List.filter_cons, h, ih]
      simp [sentCount] at ih
      exact ih

/-- C9: the send-deduplication ledger is idempotent. Starting from any ledger
in which the (user, url) pair is stored at most once (the
`UNIQUE(user_id, job_url)` invariant): re-marking an already-marked pair is a
no-op that raises no error (`INSERT OR IGNORE`); after a mark the pair is
stored exactly once; `was_sent` is true after any positive number of marks;
and `was_sent` is true exactly when the pair has been stored, hence false
otherwise. -/
theorem ledger_idempotent (L : Ledger) (u : Int) (url : String)
    (hnodup : sentCount L u url ≤ 1) :
    mark_job_sent (mark_job_sent L u url) u url = mark_job_sent L u url ∧
    sentCount (mark_job_sent L u url) u url = 1 ∧
    is_job_sent (mark_job_sent L u url) u url = true ∧
    (is_job_sent L u url = true ↔ (u, url) ∈ L) := by
  by_cases hs : is_job_sent L u url = true
  · have hmark : mark_job_sent L u url = L := by
      simp [mark_job_sent, hs]
    have hpos : sentCount L u url ≠ 0 := by
      rw [Ne, sentCount_eq_zero_iff]
      simp [hs]
    refine ⟨by rw [hmark, hmark], ?_, by rw [hmark]; exact hs,
      is_job_sent_iff_mem L u url⟩
    rw [hmark]
    omega
  · have hs' : is_job_sent L u url = false := by
      simpa using hs
    have hmark : mark_job_sent L u url = L ++ [(u, url)] := by
      simp [mark_job_sent, hs']
    have hsent : is_job_sent (L ++ [(u, url)]) u url = true := by
      simp [is_job_sent_append, is_job_sent]
    have hzero : sentCount L u url = 0 := (sentCount_eq_zero_iff L u url).mpr hs'
    refine ⟨?_, ?_, by rw [hmark]; exact hsent, is_job_sent_iff_mem L u url⟩
    · rw [hmark]
      simp [mark_job_sent, hsent]
    · rw [hmark, sentCount_append, hzero]
      simp [sentCount]

/-- C9 witness: a ledger holding one other row, user 7 and a concrete url. -/
theorem ledger_idempotent_witness :
    sentCount [(3, "https://a")] 7 "https://x" ≤ 1 ∧
    (mark_job_sent (mark_job_sent [(3, "https://a")] 7 "https://x") 7 "https://x"
        = mark_job_sent [(3, "https://a")] 7 "https://x" ∧
     sentCount (mark_job_sent [(3, "https://a")] 7 "https://x") 7 "https://x" = 1 ∧
     is_job_sent (mark_job_sent [(3, "https://a")] 7 "https://x") 7 "https://x" = true ∧
     (is_job_sent [(3, "https://a")] 7 "https://x" = true
        ↔ ((7 : Int), "https://x") ∈ [((3 : Int), "https://a")])) :=
  ⟨by decide, ledger_idempotent [(3, "https://a")] 7 "https://x" (by decide)⟩

/-! ### C10 -/

/-- C10: after any cache-missing `search_jobs_logic` call — the timed-out and
all-failed cases included, since the store at bot.py:295 is unconditional —
the returned list (possibly empty) is stored in the cache under the normalized
key, and an identical search against the resulting cache returns exactly that
stored list, leaves the cache unchanged, and dispatches zero workers, for as
long as the entry is present (the model's cache is the unexpired view of the
TTL window). -/
theorem miss_result_cached_and_reused (env : String → String → WorkerBehavior)
    (cache : Cache) (term cc : String)
    (hmiss : lookupCache cache (cache_key term cc) = none) :
    lookupCache (search_jobs_logic env cache term cc).cache (cache_key term cc)
      = some (search_jobs_logic env cache term cc).results ∧
    search_jobs_logic env (search_jobs_logic env cache term cc).cache term cc
      = ⟨(search_jobs_logic env cache term cc).results,
         (search_jobs_logic env cache term cc).cache, 0⟩ := by
  have h1 : lookupCache (search_jobs_logic env cache term cc).cache (cache_key term cc)
      = some (search_jobs_logic env cache term cc).results := by
    rw [search_miss_cache_eq env cache term cc hmiss]
    exact lookupCache_putCache_self _ _ _
  exact ⟨h1, search_hit_eq _ _ _ _ _ h1⟩

/-- C10 witness: a fully degraded search (every worker's scrape raises and no
worker ever completes) on an empty cache; the resulting empty list is cached
and the identical repeat search reuses it with zero worker dispatches. -/
theorem miss_result_cached_and_reused_witness :
    lookupCache [] (cache_key "nurse" "all") = none ∧
    (lookupCache (search_jobs_logic idleEnv [] "nurse" "all").cache
        (cache_key "nurse" "all")
      = some (search_jobs_logic idleEnv [] "nurse" "all").results ∧
     search_jobs_logic idleEnv (search_jobs_logic idleEnv [] "nurse" "all").cache
        "nurse" "all"
      = ⟨(search_jobs_logic idleEnv [] "nurse" "all").results,
         (search_jobs_logic idleEnv [] "nurse" "all").cache, 0⟩) :=
  ⟨by decide, miss_result_cached_and_reused idleEnv [] "nurse" "all" (by decide)⟩

end LinkedIt
